import Mathlib

/-!
Shallow embedding of the ingestion-and-control core of `ac_dashboard_mqtt.py`
(an MQTT-driven AC dashboard).  Inbound MQTT payloads are decoded in
`MqttClientWrapper.on_message` and placed on a FIFO queue; the control loop
`ACDashboard.process_mqtt_queue` drains that queue on a timer tick and, per
message, updates the current temperature/humidity, the bounded history deques,
the relay state and the persisted database records.

Temperatures and humidities are embedded as `Rat` (the Python floats in the
relevant claims are all exactly representable small decimals); the three
history deques (`collections.deque` with `maxlen`) are lists with an explicit
bounded-append; the SQLite table is an append-only list of records; log output
to the Qt list widget is a list of `LogEntry` values.
-/

/-- Configuration constant `TEMP_THRESHOLD = 30.0` from the CONFIG section. -/
def TEMP_THRESHOLD : Rat := 30

/-- A row of the `sensor_data` SQLite table as written by `DataManager.insert`:
`(timestamp, temperature, humidity, relay_status)` with `relay_status` stored
as the integer `int(relay_on)`. -/
structure DBRecord where
  timestamp : String
  temperature : Rat
  humidity : Rat
  relay_status : Nat
deriving DecidableEq

/-- The fields of an inbound MQTT dict message that `process_mqtt_queue` and
`on_message` ever read: `msg.get("type")`, `msg.get("temperature")`,
`msg.get("humidity")`, `msg.get("manual_override", False)` (absent keys give
the defaults `None` / `False`), and the `"raw"` key that `on_message` writes
for undecodable payloads. -/
structure MqttMsg where
  type : Option String
  temperature : Option Rat
  humidity : Option Rat
  manual_override : Bool
  raw : Option String
deriving DecidableEq

/-- A value taken off the ingestion queue.  `json.loads` may also produce a
non-dict value (list, number, string), which `process_mqtt_queue` rejects with
its `isinstance(msg, dict)` guard; `nondict` stands for any such value. -/
inductive QMsg where
  | dict (d : MqttMsg)
  | nondict
deriving DecidableEq

/-- A notice emitted through `ACDashboard.log` to the presentation layer.
`storageFailure` is included so that the absence of any storage-failure notice
is expressible; the source never constructs it. -/
inductive LogEntry where
  | highTemp (t : Rat)
  | buttonPress (relayOn : Bool)
  | storageFailure
deriving DecidableEq

/-- The mutable state of `ACDashboard` touched by `process_mqtt_queue`:
current sensor values and relay state, the three history deques with their
common capacity `max_points`, the persisted database rows, and the emitted
log entries. -/
structure DashState where
  temp : Rat
  hum : Rat
  relay_on : Bool
  max_points : Nat
  times : List String
  temps : List Rat
  hums : List Rat
  db : List DBRecord
  logs : List LogEntry
deriving DecidableEq

/-- The state set up by `ACDashboard.__init__`: `temp = 24.0`, `hum = 50.0`,
`relay_on = False`, `max_points = 200`, empty history deques, empty table,
no log output yet. -/
def initState : DashState :=
  { temp := 24
    hum := 50
    relay_on := false
    max_points := 200
    times := []
    temps := []
    hums := []
    db := []
    logs := [] }

/-- Append to a `collections.deque` with `maxlen`: the new element goes on the
right and, if the capacity is exceeded, the oldest (leftmost) entries are
dropped. -/
def dequeAppend {α : Type} (maxlen : Nat) (xs : List α) (x : α) : List α :=
  let ys := xs ++ [x]
  ys.drop (ys.length - maxlen)

/-- The body of the `while` loop of `ACDashboard.process_mqtt_queue` applied to
one dequeued message.  `now` is the value of `datetime.now()` during this
iteration (the code formats it separately for the history deque and for the
database row; both strings are derived from the same instant, which we keep as
one opaque string).  The two `if msg.get("type")==...` tests are sequential,
not `elif`, exactly as in the source. -/
def processMsg (now : String) (s : DashState) (msg : QMsg) : DashState :=
  match msg with
  | .nondict => s
  | .dict d =>
    let s1 :=
      if d.type = some "sensor" then
        match d.temperature, d.humidity with
        | some t, some h =>
          let sA := { s with
            temp := t
            hum := h
            times := dequeAppend s.max_points s.times now
            temps := dequeAppend s.max_points s.temps t
            hums := dequeAppend s.max_points s.hums h }
          let sB :=
            if TEMP_THRESHOLD ≤ t then
              { sA with logs := sA.logs ++ [LogEntry.highTemp t] }
            else sA
          let relay := decide (TEMP_THRESHOLD ≤ t) || d.manual_override
          let sC := { sB with relay_on := relay }
          { sC with db := sC.db ++
              [{ timestamp := now, temperature := t, humidity := h,
                 relay_status := if relay then 1 else 0 }] }
        | _, _ => s
      else s
    if d.type = some "button_pressed" then
      let r := !s1.relay_on
      { s1 with relay_on := r, logs := s1.logs ++ [LogEntry.buttonPress r] }
    else s1

/-- One full drain of `process_mqtt_queue`: the `while not empty` loop takes
messages in FIFO order and runs the loop body on each; each iteration observes
its own `datetime.now()`, so the queue is a list of (timestamp, message)
pairs. -/
def process_mqtt_queue (s : DashState) (msgs : List (String × QMsg)) : DashState :=
  msgs.foldl (fun st p => processMsg p.1 st p.2) s

/-- The relay state observed after each successive message of a drained batch,
in processing order. -/
def relayTrace (s : DashState) : List (String × QMsg) → List Bool
  | [] => []
  | (now, m) :: rest =>
    let s' := processMsg now s m
    s'.relay_on :: relayTrace s' rest

/-- Putting a message on `queue.Queue` (`queue.put` / `put_nowait`): FIFO
append at the tail. -/
def enqueue {α : Type} (q : List α) (x : α) : List α := q ++ [x]

/-- A sequence of enqueues. -/
def enqueueAll {α : Type} (q : List α) (xs : List α) : List α :=
  xs.foldl enqueue q

/-- The drain pattern `while not self.mqtt_queue.empty(): self.mqtt_queue.get_nowait()`
of `process_mqtt_queue`: repeatedly pop the head until the queue is empty,
collecting the popped messages in order. -/
def drainAll {α : Type} : List α → List α → List α
  | [], acc => acc
  | x :: xs, acc => drainAll xs (acc ++ [x])

/-- The decode step of `MqttClientWrapper.on_message`: `json.loads` inside
`try/except`.  `decoded` is the parse result (`some` a queue value when the
payload is valid JSON, `none` when `json.loads` raises); on failure the
callback builds the dict `{"raw": payload}`, which has no `"type"`,
`"temperature"`, `"humidity"` or `"manual_override"` keys. -/
def on_message (payload : String) (decoded : Option QMsg) : QMsg :=
  match decoded with
  | some d => d
  | none =>
    .dict { type := none, temperature := none, humidity := none,
            manual_override := false, raw := some payload }

/-- A sensor message as published by `simulate_sensor` (or a peer publisher),
optionally carrying a `manual_override` field (absent means `false`, the
default of `msg.get("manual_override", False)`). -/
def sensorMsg (t h : Rat) (ov : Bool) : QMsg :=
  .dict { type := some "sensor", temperature := some t, humidity := some h,
          manual_override := ov, raw := none }

/-- The message published by `manual_button_pressed`. -/
def buttonMsg : QMsg :=
  .dict { type := some "button_pressed", temperature := none, humidity := none,
          manual_override := false, raw := none }

/-- The scenario batch of §8: readings 28.0, 31.0, 29.0 with override absent. -/
def c1Scenario : List (String × QMsg) :=
  [("t1", sensorMsg 28 50 false), ("t2", sensorMsg 31 50 false),
   ("t3", sensorMsg 29 50 false)]

/-- The suffix of length `n` of a list (what a `deque` with `maxlen := n`
retains). -/
def lastN {α : Type} (n : Nat) (xs : List α) : List α :=
  xs.drop (xs.length - n)

/-- Decides whether `process_mqtt_queue` accepts a message as a sensor reading:
a dict with `type == "sensor"` whose `temperature` and `humidity` are both
present. -/
def acceptedSensor (m : QMsg) : Bool :=
  match m with
  | .dict d => d.type = some "sensor" && d.temperature.isSome && d.humidity.isSome
  | .nondict => false

/-- The loop body of `process_mqtt_queue` with a fallible `DataManager.insert`:
`failAt now = true` means the SQLite insert raises during the iteration whose
timestamp is `now`.  The source wraps the insert in no `try/except`, so a
raise aborts the iteration right there: `Except.error` carries the state at
the moment of the raise (temperature, humidity, history and relay already
updated; the record not persisted; nothing logged about the failure). -/
def processMsgF (failAt : String → Bool) (now : String) (s : DashState)
    (msg : QMsg) : Except DashState DashState :=
  match msg with
  | .nondict => .ok s
  | .dict d =>
    let step1 : Except DashState DashState :=
      if d.type = some "sensor" then
        match d.temperature, d.humidity with
        | some t, some h =>
          let sA := { s with
            temp := t
            hum := h
            times := dequeAppend s.max_points s.times now
            temps := dequeAppend s.max_points s.temps t
            hums := dequeAppend s.max_points s.hums h }
          let sB :=
            if TEMP_THRESHOLD ≤ t then
              { sA with logs := sA.logs ++ [LogEntry.highTemp t] }
            else sA
          let relay := decide (TEMP_THRESHOLD ≤ t) || d.manual_override
          let sC := { sB with relay_on := relay }
          if failAt now then .error sC
          else .ok { sC with db := sC.db ++
              [{ timestamp := now, temperature := t, humidity := h,
                 relay_status := if relay then 1 else 0 }] }
        | _, _ => .ok s
      else .ok s
    match step1 with
    | .error e => .error e
    | .ok s1 =>
      .ok (if d.type = some "button_pressed" then
            { s1 with relay_on := !s1.relay_on,
                      logs := s1.logs ++ [LogEntry.buttonPress (!s1.relay_on)] }
          else s1)

/-- The drain loop of `process_mqtt_queue` with the fallible insert: an
uncaught raise propagates out of the `while` loop, so the remaining queued
messages of that tick are not processed. -/
def processQueueF (failAt : String → Bool) (s : DashState) :
    List (String × QMsg) → Except DashState DashState
  | [] => .ok s
  | (now, m) :: rest =>
    match processMsgF failAt now s m with
    | .error e => .error e
    | .ok s' => processQueueF failAt s' rest

/-- Fault schedule for the storage-failure scenario: the insert of the
iteration stamped `"t1"` raises. -/
def c7FailAt : String → Bool := fun ts => ts = "t1"

/-- Two-reading batch for the storage-failure scenario. -/
def c7Msgs : List (String × QMsg) :=
  [("t1", sensorMsg 28 50 false), ("t2", sensorMsg 31 60 false)]

/-- The state at the moment the insert for the first reading of `c7Msgs`
raises: the reading is reflected everywhere except the database, nothing about
the failure is logged, and the second reading is absent. -/
def c7ErrState : DashState :=
  { temp := 28
    hum := 50
    relay_on := false
    max_points := 200
    times := ["t1"]
    temps := [28]
    hums := [50]
    db := []
    logs := [] }

/-! ## Helper lemmas -/

theorem drainAll_eq {α : Type} (q acc : List α) : drainAll q acc = acc ++ q := by
  induction q generalizing acc with
  | nil => simp [drainAll]
  | cons x xs ih => simp [drainAll, ih]

theorem enqueueAll_eq {α : Type} (q xs : List α) : enqueueAll q xs = q ++ xs := by
  induction xs generalizing q with
  | nil => simp [enqueueAll]
  | cons x xs ih =>
    simp only [enqueueAll, List.foldl_cons] at *
    rw [ih, enqueue, List.append_assoc]
    rfl

/-! ## C1: threshold relay logic is memoryless -/

/-- C1: for every accepted sensor reading with temperature `t`, the relay
state after the reading is ON iff `t ≥ TEMP_THRESHOLD` or the message's
`manual_override` is set, for every prior state (memoryless); in particular,
with override absent, the batch 28.0, 31.0, 29.0 yields the relay trace
OFF, ON, OFF from any initial state. -/
theorem relay_threshold_memoryless :
    (∀ (s : DashState) (now : String) (d : MqttMsg) (t h : Rat),
      d.type = some "sensor" → d.temperature = some t → d.humidity = some h →
      ((processMsg now s (.dict d)).relay_on = true ↔
        (TEMP_THRESHOLD ≤ t ∨ d.manual_override = true)))
    ∧ (∀ s : DashState, relayTrace s c1Scenario = [false, true, false]) := by
  constructor
  · intro s now d t h hty ht hh
    simp [processMsg, hty, ht, hh]
  · intro s
    simp [c1Scenario, relayTrace, processMsg, sensorMsg, TEMP_THRESHOLD]
    norm_num

/-- Witness for C1 at the concrete reading 31.0 from the initial state. -/
theorem relay_threshold_memoryless_witness :
    (processMsg "12:00:00" initState
      (.dict { type := some "sensor", temperature := some 31,
               humidity := some 50, manual_override := false,
               raw := none })).relay_on = true ↔
      (TEMP_THRESHOLD ≤ (31 : Rat) ∨ false = true) :=
  relay_threshold_memoryless.1 initState "12:00:00" _ 31 50 rfl rfl rfl

/-! ## C2: button press toggles the relay unconditionally -/

/-- C2: a `button_pressed` message flips the relay state, whatever the
temperature fields of the message and the prior state; besides appending a
notice naming the new state, it changes nothing else (temperature, humidity,
history deques and database rows are untouched). -/
theorem button_toggles_relay (s : DashState) (now : String) (d : MqttMsg)
    (hty : d.type = some "button_pressed") :
    processMsg now s (.dict d) =
      { s with relay_on := !s.relay_on,
               logs := s.logs ++ [LogEntry.buttonPress (!s.relay_on)] } := by
  simp [processMsg, hty]

/-- Witness for C2: the button message applied to the initial state. -/
theorem button_toggles_relay_witness :
    processMsg "ts" initState buttonMsg =
      { initState with relay_on := !initState.relay_on,
                       logs := initState.logs ++
                         [LogEntry.buttonPress (!initState.relay_on)] } :=
  button_toggles_relay initState "ts"
    { type := some "button_pressed", temperature := none, humidity := none,
      manual_override := false, raw := none } rfl

/-! ## C3: no sticky manual-override flag exists -/

/-- C3 counterexample: there is no `ManualOverride` event and no persistent
override flag in the code; `manual_override` is read per sensor message with
default `False`.  Setting it true in one reading (10.0, relay ON purely by
override) does not carry over: the next reading of 10.0 without the field
yields relay OFF, not ON as the claim requires. -/
theorem override_not_sticky_counterexample :
    relayTrace initState
      [("t1", sensorMsg 10 50 true), ("t2", sensorMsg 10 50 false)] =
      [true, false] := by decide

/-- C3 amended: the override is a per-message field of sensor readings.  A
reading carrying `manual_override = true` yields relay ON regardless of
temperature (so a reading of 10.0 with the field set yields ON), but the
override does not persist: a subsequent reading below the threshold without
the field yields OFF. -/
theorem override_per_message :
    (∀ (s : DashState) (now : String) (t h : Rat),
      (processMsg now s (sensorMsg t h true)).relay_on = true)
    ∧ (∀ (s : DashState) (now now' : String) (t h t' h' : Rat),
        t' < TEMP_THRESHOLD →
        (processMsg now' (processMsg now s (sensorMsg t h true))
          (sensorMsg t' h' false)).relay_on = false) := by
  constructor
  · intro s now t h
    simp [processMsg, sensorMsg]
  · intro s now now' t h t' h' hlt
    simp [processMsg, sensorMsg, not_le.mpr hlt]

/-- Witness for C3 (amended) at readings 10.0 with override, then 10.0
without. -/
theorem override_per_message_witness :
    (processMsg "t2" (processMsg "t1" initState (sensorMsg 10 50 true))
      (sensorMsg 10 50 false)).relay_on = false :=
  override_per_message.2 initState "t1" "t2" 10 50 10 50 (by norm_num [TEMP_THRESHOLD])

/-! ## C4: the queue drain is exact -/

/-- C4: draining the queue after any sequence of enqueues returns exactly the
enqueued messages, each once, in enqueue order — no duplication, loss or
reordering — and draining an empty queue returns the empty sequence. -/
theorem drain_returns_enqueue_order :
    (∀ (ms : List QMsg), drainAll (enqueueAll [] ms) [] = ms)
    ∧ drainAll ([] : List QMsg) [] = [] := by
  refine ⟨fun ms => ?_, rfl⟩
  rw [enqueueAll_eq, drainAll_eq]
  simp

/-! ## C8: malformed payloads are ignored without effect or notice -/

/-- C8 counterexample: an undecodable payload is wrapped as `{"raw": payload}`
and enqueued, but the control loop drops it silently: the state is unchanged
and, in particular, the log list stays empty — nothing is surfaced to the
presentation collaborator, contrary to the claim's "forwarded as a system
event surfaced to the presentation collaborator". -/
theorem malformed_no_notice_counterexample :
    processMsg "ts" initState (on_message "garbage" none) = initState
    ∧ (processMsg "ts" initState (on_message "garbage" none)).logs = [] := by
  decide

/-- C8 amended: an undecodable payload is wrapped as an opaque dict (key
`"raw"` only) and enqueued without raising; processing it never raises and
changes no relay, history, persisted or log state — it is silently ignored,
with no generic event surfaced to the presentation collaborator.  A decoded
payload that is not a dict is likewise ignored unchanged. -/
theorem malformed_opaque_no_effect :
    (∀ (payload : String) (s : DashState) (now : String),
      processMsg now s (on_message payload none) = s)
    ∧ (∀ (s : DashState) (now : String), processMsg now s .nondict = s) := by
  constructor
  · intro payload s now
    simp [on_message, processMsg]
  · intro s now
    simp [processMsg]

/-! ## C9: sensor messages with a missing field are no-ops -/

/-- C9: a `"sensor"` message whose temperature or humidity field is absent
leaves the entire state unchanged — relay, current temperature and humidity,
history deques, database rows — and emits no notice. -/
theorem missing_field_no_effect (s : DashState) (now : String) (d : MqttMsg)
    (hty : d.type = some "sensor")
    (hmiss : d.temperature = none ∨ d.humidity = none) :
    processMsg now s (.dict d) = s := by
  rcases hmiss with ht | hh
  · cases hh : d.humidity <;> simp [processMsg, hty, ht, hh]
  · cases ht : d.temperature <;> simp [processMsg, hty, ht, hh]

/-- Witness for C9: a sensor message whose humidity is absent. -/
theorem missing_field_no_effect_witness :
    processMsg "ts" initState
      (.dict { type := some "sensor", temperature := some 31,
               humidity := none, manual_override := false, raw := none }) =
      initState :=
  missing_field_no_effect initState "ts"
    { type := some "sensor", temperature := some 31, humidity := none,
      manual_override := false, raw := none } rfl (Or.inr rfl)

/-! ## More helper lemmas: deque arithmetic and message-case analyses -/

theorem dequeAppend_length {α : Type} (n : Nat) (xs : List α) (x : α) :
    (dequeAppend n xs x).length = min (xs.length + 1) n := by
  simp [dequeAppend]
  omega

theorem dequeAppend_length_le {α : Type} (n : Nat) (xs : List α) (x : α) :
    (dequeAppend n xs x).length ≤ n := by
  rw [dequeAppend_length]
  omega

theorem dequeAppend_eq_lastN {α : Type} (n : Nat) (xs : List α) (x : α) :
    dequeAppend n xs x = lastN n (xs ++ [x]) := rfl

theorem lastN_append_singleton {α : Type} (n : Nat) (ys : List α) (x : α) :
    lastN n (lastN n ys ++ [x]) = lastN n (ys ++ [x]) := by
  rcases Nat.le_total ys.length n with hle | hge
  · have hys : lastN n ys = ys := by
      rw [lastN, Nat.sub_eq_zero_of_le hle, List.drop_zero]
    rw [hys]
  · unfold lastN
    simp only [List.length_append, List.length_drop, List.length_singleton]
    have h1 : ys.length - (ys.length - n) + 1 - n = 1 := by omega
    have h3 : ys.length + 1 - n = (ys.length - n) + 1 := by omega
    rw [h1, h3]
    conv_rhs => rw [← List.drop_drop, List.drop_append_eq_append_drop]
    have h4 : ys.length - n - ys.length = 0 := by omega
    rw [h4, List.drop_zero]

theorem foldl_dequeAppend_eq_lastN {α : Type} (n : Nat) (l : List α) :
    List.foldl (dequeAppend n) [] l = lastN n l := by
  induction l using List.reverseRecOn with
  | nil => simp [lastN]
  | append_singleton l x ih =>
    rw [List.foldl_append, List.foldl_cons, List.foldl_nil, ih,
      dequeAppend_eq_lastN, lastN_append_singleton]

theorem processMsg_sensor_eq (now : String) (s : DashState) (d : MqttMsg)
    (t h : Rat) (hty : d.type = some "sensor") (ht : d.temperature = some t)
    (hh : d.humidity = some h) :
    processMsg now s (.dict d) =
      { s with
        temp := t
        hum := h
        times := dequeAppend s.max_points s.times now
        temps := dequeAppend s.max_points s.temps t
        hums := dequeAppend s.max_points s.hums h
        relay_on := decide (TEMP_THRESHOLD ≤ t) || d.manual_override
        logs := if TEMP_THRESHOLD ≤ t then s.logs ++ [LogEntry.highTemp t]
                else s.logs
        db := s.db ++
          [{ timestamp := now, temperature := t, humidity := h,
             relay_status :=
               if decide (TEMP_THRESHOLD ≤ t) || d.manual_override then 1
               else 0 }] } := by
  by_cases hc : TEMP_THRESHOLD ≤ t <;>
    simp [processMsg, hty, ht, hh, hc]

theorem acceptedSensor_spec (m : QMsg) (hm : acceptedSensor m = true) :
    ∃ d t h, m = .dict d ∧ d.type = some "sensor" ∧ d.temperature = some t
      ∧ d.humidity = some h := by
  rcases m with d | _
  · simp [acceptedSensor] at hm
    obtain ⟨⟨hty, ht⟩, hh⟩ := hm
    obtain ⟨t, ht⟩ := Option.isSome_iff_exists.mp ht
    obtain ⟨h, hh⟩ := Option.isSome_iff_exists.mp hh
    exact ⟨d, t, h, rfl, hty, ht, hh⟩
  · simp [acceptedSensor] at hm

theorem processMsg_not_accepted_frame (now : String) (s : DashState) (m : QMsg)
    (hna : acceptedSensor m = false) :
    (processMsg now s m).times = s.times
    ∧ (processMsg now s m).temps = s.temps
    ∧ (processMsg now s m).hums = s.hums
    ∧ (processMsg now s m).db = s.db
    ∧ (processMsg now s m).max_points = s.max_points := by
  rcases m with d | _
  · by_cases hty : d.type = some "sensor"
    · rcases ht : d.temperature with _ | t
      · simp [processMsg, hty, ht]
      · revert hna
        rcases hh : d.humidity with _ | h
        · intro hna
          simp [processMsg, hty, ht, hh]
        · intro hna
          simp [acceptedSensor, hty, ht, hh] at hna
    · by_cases hbp : d.type = some "button_pressed"
      · simp [processMsg, hty, hbp]
      · simp [processMsg, hty, hbp]
  · simp [processMsg]

theorem processMsg_max_points (now : String) (s : DashState) (m : QMsg) :
    (processMsg now s m).max_points = s.max_points := by
  by_cases hm : acceptedSensor m = true
  · obtain ⟨d, t, h, rfl, hty, ht, hh⟩ := acceptedSensor_spec m hm
    rw [processMsg_sensor_eq now s d t h hty ht hh]
  · exact (processMsg_not_accepted_frame now s m
      (Bool.eq_false_iff.mpr hm)).2.2.2.2

theorem processMsg_preserves_aligned (now : String) (s : DashState) (m : QMsg)
    (h1 : s.times.length = s.temps.length)
    (h2 : s.temps.length = s.hums.length) :
    (processMsg now s m).times.length = (processMsg now s m).temps.length
    ∧ (processMsg now s m).temps.length = (processMsg now s m).hums.length := by
  by_cases hm : acceptedSensor m = true
  · obtain ⟨d, t, h, rfl, hty, ht, hh⟩ := acceptedSensor_spec m hm
    rw [processMsg_sensor_eq now s d t h hty ht hh]
    constructor
    · show (dequeAppend s.max_points s.times now).length =
        (dequeAppend s.max_points s.temps t).length
      rw [dequeAppend_length, dequeAppend_length, h1]
    · show (dequeAppend s.max_points s.temps t).length =
        (dequeAppend s.max_points s.hums h).length
      rw [dequeAppend_length, dequeAppend_length, h2]
  · have hf := processMsg_not_accepted_frame now s m (Bool.eq_false_iff.mpr hm)
    rw [hf.1, hf.2.1, hf.2.2.1]
    exact ⟨h1, h2⟩

theorem processQueue_preserves_aligned (s : DashState)
    (msgs : List (String × QMsg))
    (h1 : s.times.length = s.temps.length)
    (h2 : s.temps.length = s.hums.length) :
    (process_mqtt_queue s msgs).times.length =
      (process_mqtt_queue s msgs).temps.length
    ∧ (process_mqtt_queue s msgs).temps.length =
      (process_mqtt_queue s msgs).hums.length := by
  induction msgs generalizing s with
  | nil => exact ⟨h1, h2⟩
  | cons p rest ih =>
    have step := processMsg_preserves_aligned p.1 s p.2 h1 h2
    have hrec := ih (processMsg p.1 s p.2) step.1 step.2
    simpa [process_mqtt_queue, List.foldl_cons] using hrec

/-! ## C5: the history buffer is bounded with FIFO eviction -/

/-- C5: a deque append never yields more than the capacity; the control loop
keeps the temperature history within `max_points`; pushing N+1 entries into an
empty capacity-N buffer leaves the N most recent in insertion order (the
first-pushed entry is gone); the configured capacity is 200; and with
capacity 2, pushing A, B, C leaves exactly [B, C]. -/
theorem history_capacity_bound :
    (∀ (α : Type) (n : Nat) (xs : List α) (x : α),
      (dequeAppend n xs x).length ≤ n)
    ∧ (∀ (s : DashState) (now : String) (m : QMsg),
        s.temps.length ≤ s.max_points →
        (processMsg now s m).temps.length ≤ (processMsg now s m).max_points)
    ∧ (∀ (α : Type) (n : Nat) (ys : List α), ys.length = n + 1 →
        List.foldl (dequeAppend n) [] ys = ys.drop 1)
    ∧ initState.max_points = 200
    ∧ List.foldl (dequeAppend 2) ([] : List String) ["A", "B", "C"] =
        ["B", "C"] := by
  refine ⟨fun α n xs x => dequeAppend_length_le n xs x, ?_, ?_, rfl, by decide⟩
  · intro s now m hle
    rw [processMsg_max_points]
    by_cases hm : acceptedSensor m = true
    · obtain ⟨d, t, h, rfl, hty, ht, hh⟩ := acceptedSensor_spec m hm
      rw [processMsg_sensor_eq now s d t h hty ht hh]
      exact dequeAppend_length_le _ _ _
    · rw [(processMsg_not_accepted_frame now s m (Bool.eq_false_iff.mpr hm)).2.1]
      exact hle
  · intro α n ys hlen
    rw [foldl_dequeAppend_eq_lastN, lastN, hlen]
    have h1 : n + 1 - n = 1 := by omega
    rw [h1]

/-- Witness for C5: three pushes into an empty capacity-2 buffer keep the last
two. -/
theorem history_capacity_bound_witness :
    List.foldl (dequeAppend 2) ([] : List Rat) [28, 31, 29] =
      List.drop 1 [28, 31, 29] :=
  history_capacity_bound.2.2.1 Rat 2 [28, 31, 29] rfl

/-! ## C6: exactly one persisted record per accepted reading -/

/-- C6: processing an accepted sensor reading appends exactly one database
record, carrying the iteration's timestamp, the reading's temperature and
humidity, and `int` of the relay state just computed for that reading; no
other message kind ever touches the database. -/
theorem persisted_record_per_reading :
    (∀ (s : DashState) (now : String) (d : MqttMsg) (t h : Rat),
      d.type = some "sensor" → d.temperature = some t → d.humidity = some h →
      (processMsg now s (.dict d)).db = s.db ++
        [{ timestamp := now, temperature := t, humidity := h,
           relay_status :=
             if (processMsg now s (.dict d)).relay_on then 1 else 0 }])
    ∧ (∀ (s : DashState) (now : String) (m : QMsg),
        acceptedSensor m = false → (processMsg now s m).db = s.db) := by
  constructor
  · intro s now d t h hty ht hh
    rw [processMsg_sensor_eq now s d t h hty ht hh]
  · intro s now m hna
    exact (processMsg_not_accepted_frame now s m hna).2.2.2.1

/-- Witness for C6 at the concrete reading 31.0/50.0 from the initial
state. -/
theorem persisted_record_per_reading_witness :
    (processMsg "ts" initState (sensorMsg 31 50 false)).db =
      initState.db ++
        [{ timestamp := "ts", temperature := 31, humidity := 50,
           relay_status :=
             if (processMsg "ts" initState (sensorMsg 31 50 false)).relay_on
             then 1 else 0 }] :=
  persisted_record_per_reading.1 initState "ts"
    { type := some "sensor", temperature := some 31, humidity := some 50,
      manual_override := false, raw := none } 31 50 rfl rfl rfl

/-! ## C7: an uncaught storage failure aborts the tick -/

/-- C7 counterexample: with the insert of the first reading of `c7Msgs`
raising, the drain ends in an uncaught exception (`Except.error`), the
error-time state shows the first reading applied to history (temps = [28])
but not persisted (db = []), no notice of any kind was emitted (logs = []),
and the second drained message was never processed — contradicting the
claim that a StorageFailure notice is emitted and the loop continues. -/
theorem storage_failure_halts_loop_counterexample :
    processQueueF c7FailAt initState c7Msgs = Except.error c7ErrState
    ∧ c7ErrState.logs = []
    ∧ c7ErrState.temps = [28]
    ∧ c7ErrState.db = [] :=
  ⟨rfl, rfl, rfl, rfl⟩

/-- C7 amended: when `DataManager.insert` raises for an accepted reading, the
reading has already updated the current values, the history buffer and the
relay state, but the record is not persisted, no StorageFailure notice is
emitted (the log gains at most the high-temperature warning), and the
exception propagates out of `process_mqtt_queue`, leaving the remaining
drained messages of that tick unprocessed. -/
theorem storage_failure_aborts_tick :
    (∀ (failAt : String → Bool) (now : String) (s : DashState) (d : MqttMsg)
       (t h : Rat),
      d.type = some "sensor" → d.temperature = some t → d.humidity = some h →
      failAt now = true →
      processMsgF failAt now s (.dict d) = Except.error
        { s with
          temp := t
          hum := h
          times := dequeAppend s.max_points s.times now
          temps := dequeAppend s.max_points s.temps t
          hums := dequeAppend s.max_points s.hums h
          relay_on := decide (TEMP_THRESHOLD ≤ t) || d.manual_override
          logs := if TEMP_THRESHOLD ≤ t then s.logs ++ [LogEntry.highTemp t]
                  else s.logs })
    ∧ (∀ (failAt : String → Bool) (s : DashState) (now : String) (m : QMsg)
         (rest : List (String × QMsg)) (e : DashState),
        processMsgF failAt now s m = Except.error e →
        processQueueF failAt s ((now, m) :: rest) = Except.error e) := by
  constructor
  · intro failAt now s d t h hty ht hh hf
    by_cases hc : TEMP_THRESHOLD ≤ t <;>
      simp [processMsgF, hty, ht, hh, hf, hc]
  · intro failAt s now m rest e he
    simp [processQueueF, he]

/-- Witness for C7 (amended): the failing first reading of `c7Msgs` makes the
whole drain return its error state. -/
theorem storage_failure_aborts_tick_witness :
    processQueueF c7FailAt initState
      (("t1", sensorMsg 28 50 false) :: [("t2", sensorMsg 31 60 false)]) =
      Except.error c7ErrState :=
  storage_failure_aborts_tick.2 c7FailAt initState "t1" (sensorMsg 28 50 false)
    [("t2", sensorMsg 31 60 false)] c7ErrState rfl

/-! ## C10: the three history sequences stay aligned -/

/-- C10: an accepted sensor reading appends one entry to each of the three
history deques (timestamp, temperature, humidity); every other message leaves
all three untouched; hence the three lengths, equal initially, stay equal
after any drained batch. -/
theorem history_lengths_aligned :
    (∀ (s : DashState) (now : String) (d : MqttMsg) (t h : Rat),
      d.type = some "sensor" → d.temperature = some t → d.humidity = some h →
      (processMsg now s (.dict d)).times = dequeAppend s.max_points s.times now
      ∧ (processMsg now s (.dict d)).temps = dequeAppend s.max_points s.temps t
      ∧ (processMsg now s (.dict d)).hums = dequeAppend s.max_points s.hums h)
    ∧ (∀ (s : DashState) (now : String) (m : QMsg), acceptedSensor m = false →
        (processMsg now s m).times = s.times
        ∧ (processMsg now s m).temps = s.temps
        ∧ (processMsg now s m).hums = s.hums)
    ∧ (∀ (s : DashState) (msgs : List (String × QMsg)),
        s.times.length = s.temps.length → s.temps.length = s.hums.length →
        (process_mqtt_queue s msgs).times.length =
          (process_mqtt_queue s msgs).temps.length
        ∧ (process_mqtt_queue s msgs).temps.length =
          (process_mqtt_queue s msgs).hums.length) := by
  refine ⟨?_, ?_, fun s msgs h1 h2 => processQueue_preserves_aligned s msgs h1 h2⟩
  · intro s now d t h hty ht hh
    rw [processMsg_sensor_eq now s d t h hty ht hh]
    exact ⟨rfl, rfl, rfl⟩
  · intro s now m hna
    have hf := processMsg_not_accepted_frame now s m hna
    exact ⟨hf.1, hf.2.1, hf.2.2.1⟩

/-- Witness for C10: the three-reading scenario batch keeps the three history
lengths equal. -/
theorem history_lengths_aligned_witness :
    (process_mqtt_queue initState c1Scenario).times.length =
      (process_mqtt_queue initState c1Scenario).temps.length
    ∧ (process_mqtt_queue initState c1Scenario).temps.length =
      (process_mqtt_queue initState c1Scenario).hums.length :=
  history_lengths_aligned.2.2 initState c1Scenario rfl rfl
